import Mathlib

/-!
Verification of the compute-shader orchestration loop in
`examples/compute-with-time/src/main.rs` (a Game-of-Life compute example).

The Rust source is shallowly embedded below: the per-frame state machine
(`GameOfLifeNode::update`), the compute-pass recording (`GameOfLifeNode::run`),
the bind-group creation system (`queue_bind_group`), the uniform-buffer upload
system (`prepare_time`), and the startup configuration (`main`, `SIZE`,
`WORKGROUP_SIZE`, the buffer and bind-group-layout descriptors) are translated
into executable Lean definitions, and the spec's claims are settled as theorems
about those definitions.
-/

namespace GameOfLife

/-- `const SIZE: (u32, u32) = (1280, 720);` (main.rs line 25).
In Lean, `SIZE.1` is the Rust `SIZE.0` (width) and `SIZE.2` is `SIZE.1`
(height). Values fit far below `2^32`, so `Nat` division agrees with Rust
`u32` division. -/
def SIZE : Nat × Nat := (1280, 720)

/-- `const WORKGROUP_SIZE: u32 = 8;` (main.rs line 27). -/
def WORKGROUP_SIZE : Nat := 8

/-- Status of a queued pipeline in the host `PipelineCache`
(`CachedPipelineState` in bevy): `Queued` = still compiling (the spec's
Pending), `Ok` = compiled (the spec's Ready), `Err` = compilation failed
(the spec's Failed). The payloads of `Ok`/`Err` are irrelevant to the
control flow and are dropped. -/
inductive CachedPipelineState where
  | Queued
  | Ok
  | Err
deriving DecidableEq, Repr

/-- The two cached compute pipelines owned by `GameOfLifePipeline`
(main.rs lines 171-176): the `init` entry point and the `update`
entry point. -/
inductive PipelineId where
  | init
  | update
deriving DecidableEq, Repr

/-- The slice of the host `PipelineCache` visible to this program: the
status of each of the two queued pipelines in a given frame. -/
structure PipelineCache where
  initState : CachedPipelineState
  updateState : CachedPipelineState
deriving DecidableEq, Repr

/-- `PipelineCache::get_compute_pipeline_state` restricted to the two ids
this program queues. -/
def PipelineCache.get_compute_pipeline_state (c : PipelineCache)
    (p : PipelineId) : CachedPipelineState :=
  match p with
  | .init => c.initState
  | .update => c.updateState

/-- `PipelineCache::get_compute_pipeline`: returns the compiled pipeline
only when its cached state is `Ok`, otherwise `None`. The pipeline object
itself is represented by its id. -/
def PipelineCache.get_compute_pipeline (c : PipelineCache)
    (p : PipelineId) : Option PipelineId :=
  match c.get_compute_pipeline_state p with
  | .Ok => some p
  | _ => none

/-- `enum GameOfLifeState { Loading, Init, Update }` (main.rs lines 243-247).
The spec calls these Loading, Initializing and SteadyState. -/
inductive GameOfLifeState where
  | Loading
  | Init
  | Update
deriving DecidableEq, Repr

/-- `GameOfLifeNode::update` (main.rs lines 262-292): one loader-status
poll. From `Loading`, move to `Init` exactly when the init pipeline's
cached state is `Ok`; from `Init`, move to `Update` exactly when the
update pipeline's cached state is `Ok`; `Update` is terminal. -/
def GameOfLifeNode.update (state : GameOfLifeState)
    (cache : PipelineCache) : GameOfLifeState :=
  match state with
  | .Loading =>
    match cache.get_compute_pipeline_state .init with
    | .Ok => .Init
    | _ => .Loading
  | .Init =>
    match cache.get_compute_pipeline_state .update with
    | .Ok => .Update
    | _ => .Init
  | .Update => .Update

/-- Folding `GameOfLifeNode.update` over a sequence of per-frame
pipeline-cache snapshots: the state after a sequence of loader-status
polls. -/
def updateSeq (state : GameOfLifeState) (cs : List PipelineCache) :
    GameOfLifeState :=
  cs.foldl GameOfLifeNode.update state

/-- Rank of a state in the Loading → Init → Update progression, used to
express monotonicity. -/
def stateRank : GameOfLifeState → Nat
  | .Loading => 0
  | .Init => 1
  | .Update => 2

/-- A `BindingResource` as used in `queue_bind_group` (main.rs lines
150-163): binding 0 receives the GPU image's texture view, binding 1
receives the whole time uniform buffer (`as_entire_binding`). Handles are
abstracted as naturals. -/
inductive BindingResource where
  | TextureView (view : Nat)
  | BufferBinding (buffer : Nat)
deriving DecidableEq, Repr

/-- One `BindGroupEntry { binding, resource }` of the descriptor passed to
`create_bind_group`. -/
structure BindGroupEntry where
  binding : Nat
  resource : BindingResource
deriving DecidableEq, Repr

/-- The entry list of the `BindGroupDescriptor` built in `queue_bind_group`
(main.rs lines 146-165): binding 0 = the target image's texture view,
binding 1 = the time uniform buffer bound in its entirety. -/
def bind_group_entries (view : Nat) (buffer : Nat) : List BindGroupEntry :=
  [{ binding := 0, resource := .TextureView view },
   { binding := 1, resource := .BufferBinding buffer }]

/-- A bind group created by `RenderDevice::create_bind_group`. `id` is the
identity of the freshly created GPU object (each call to
`create_bind_group` returns a new object); `entries` records the
resources it binds. -/
structure BindGroup where
  id : Nat
  entries : List BindGroupEntry
deriving DecidableEq, Repr

/-- Handle of the time uniform buffer created once in
`GameOfLifeComputePlugin::build` (main.rs lines 84-92). -/
def TIME_BUFFER : Nat := 0

/-- `queue_bind_group` (main.rs lines 137-169): runs every frame in the
`Queue` render stage; unconditionally calls `create_bind_group` with the
target image's texture view at binding 0 and the time uniform buffer at
binding 1, and overwrites the `GameOfLifeImageBindGroup` resource with the
new object. `nextId` is the identity the device gives the freshly created
object; the call consumes it and returns the incremented supply. -/
def queue_bind_group (nextId : Nat) (image_view : Nat) : BindGroup × Nat :=
  ({ id := nextId, entries := bind_group_entries image_view TIME_BUFFER },
   nextId + 1)

/-- Commands recorded into the compute pass by `GameOfLifeNode::run`. -/
inductive PassCommand where
  | set_bind_group (index : Nat) (bg : BindGroup)
  | set_pipeline (p : PipelineId)
  | dispatch_workgroups (x y z : Nat)
deriving DecidableEq, Repr

/-- `GameOfLifeNode::run` (main.rs lines 294-347): begin a compute pass,
set bind group 0, then select on the current state: `Loading` records
nothing further; `Init` looks up the init pipeline (`.unwrap()`, modelled
as `Option` where `none` is the panic), sets it and dispatches
`(SIZE.0 / WORKGROUP_SIZE, SIZE.1 / WORKGROUP_SIZE, 1)` workgroups;
`Update` does the same with the update pipeline. -/
def GameOfLifeNode.run (state : GameOfLifeState) (cache : PipelineCache)
    (bg : BindGroup) : Option (List PassCommand) :=
  let pass := [PassCommand.set_bind_group 0 bg]
  match state with
  | .Loading => some pass
  | .Init =>
    match cache.get_compute_pipeline .init with
    | none => none
    | some p =>
      some (pass ++ [PassCommand.set_pipeline p,
        PassCommand.dispatch_workgroups (SIZE.1 / WORKGROUP_SIZE)
          (SIZE.2 / WORKGROUP_SIZE) 1])
  | .Update =>
    match cache.get_compute_pipeline .update with
    | none => none
    | some p =>
      some (pass ++ [PassCommand.set_pipeline p,
        PassCommand.dispatch_workgroups (SIZE.1 / WORKGROUP_SIZE)
          (SIZE.2 / WORKGROUP_SIZE) 1])

/-- Whether a pass command is a dispatch. -/
def isDispatch : PassCommand → Bool
  | .dispatch_workgroups _ _ _ => true
  | _ => false

/-- Number of `dispatch_workgroups` commands recorded in a pass. -/
def dispatchCount (cmds : List PassCommand) : Nat :=
  (cmds.filter isDispatch).length

/-- The workgroup-count computation of `GameOfLifeNode::run`, parameterized
by the configured size and workgroup size: truncating integer division on
each axis (Rust `u32` division), depth 1. -/
def workgroupCounts (size : Nat × Nat) (wg : Nat) : Nat × Nat × Nat :=
  (size.1 / wg, size.2 / wg, 1)

/-- `main` (main.rs lines 29-40) only registers plugins, resources and the
startup system; neither it nor any other code in the source validates that
`SIZE` is divisible by `WORKGROUP_SIZE`, so startup never rejects a
(size, workgroup) configuration. -/
def startupRejects (_size : Nat × Nat) (_wg : Nat) : Bool :=
  false

/-- `StorageTextureAccess` of the layout's image binding. -/
inductive StorageTextureAccess where
  | ReadOnly
  | WriteOnly
  | ReadWrite
deriving DecidableEq, Repr

/-- `TextureViewDimension` of the layout's image binding. -/
inductive TextureViewDimension where
  | D1
  | D2
  | D3
deriving DecidableEq, Repr

/-- `BufferBindingType` of the layout's buffer binding. -/
inductive BufferBindingType where
  | Uniform
  | Storage
deriving DecidableEq, Repr

/-- `BindingType` of a bind-group-layout entry, restricted to the variants
this program uses (texture format is fixed to `Rgba8Unorm` in the source
and not modelled). `min_binding_size` is in bytes. -/
inductive BindingType where
  | StorageTexture (access : StorageTextureAccess)
      (view_dimension : TextureViewDimension)
  | Buffer (ty : BufferBindingType) (has_dynamic_offset : Bool)
      (min_binding_size : Option Nat)
deriving DecidableEq, Repr

/-- One `BindGroupLayoutEntry { binding, ty }` (visibility is COMPUTE for
both entries in the source and not modelled). -/
structure BindGroupLayoutEntry where
  binding : Nat
  ty : BindingType
deriving DecidableEq, Repr

/-- The `texture_bind_group_layout` created in
`GameOfLifePipeline::from_world` (main.rs lines 180-204): binding 0 is a
read-write 2D storage texture, binding 1 is a uniform buffer with
`min_binding_size = size_of::<f32>() = 4` bytes. -/
def texture_bind_group_layout : List BindGroupLayoutEntry :=
  [{ binding := 0, ty := .StorageTexture .ReadWrite .D2 },
   { binding := 1, ty := .Buffer .Uniform false (some 4) }]

/-- The `BufferDescriptor` of the time uniform buffer created in
`GameOfLifeComputePlugin::build` (main.rs lines 84-92):
`size = size_of::<f32>() = 4`, usage UNIFORM | COPY_DST, not mapped at
creation. -/
structure BufferDescriptor where
  size : Nat
  uniform_usage : Bool
  copy_dst_usage : Bool
  mapped_at_creation : Bool
deriving DecidableEq, Repr

/-- The descriptor actually passed to `create_buffer` in `build`. -/
def time_uniform_buffer_descriptor : BufferDescriptor :=
  { size := 4
    uniform_usage := true
    copy_dst_usage := true
    mapped_at_creation := false }

/-- The `TimeMeta` render resource (main.rs lines 365-369): the uniform
buffer's handle and an `Option<BindGroup>` field that `build` initializes
to `None`. -/
structure TimeMeta where
  buffer : Nat
  bind_group : Option BindGroup
deriving DecidableEq, Repr

/-- One `RenderQueue::write_buffer` call: destination offset, number of
bytes written, and the value written (the extracted elapsed time,
abstracted from `f32` to a plain value since the program only copies it). -/
structure BufferWrite where
  offset : Nat
  len : Nat
  value : Nat
deriving DecidableEq, Repr

/-- `prepare_time` (main.rs lines 372-384): runs every frame in the
`Prepare` render stage and unconditionally writes the extracted elapsed
time — `cast_slice(&[f32])`, i.e. 4 bytes — to the time buffer at
offset 0. -/
def prepare_time (time : Nat) : BufferWrite :=
  { offset := 0, len := 4, value := time }

/-- Per-frame inputs supplied by the host engine: the extracted elapsed
time (`ExtractedTime`), the GPU view of the target image
(`gpu_images[&game_of_life_image.0]`), and the pipeline cache's status for
each of the two queued pipelines. -/
structure FrameInput where
  time : Nat
  image_view : Nat
  initStatus : CachedPipelineState
  updateStatus : CachedPipelineState
deriving DecidableEq, Repr

/-- The render-world state this program owns across frames: the node's
`GameOfLifeState`, the `TimeMeta` resource, the current content of the
time uniform buffer, the device's fresh-identity supply for bind groups,
and the `GameOfLifeImageBindGroup` resource. -/
structure RenderWorld where
  state : GameOfLifeState
  time_meta : TimeMeta
  buffer_content : Option Nat
  next_bind_group_id : Nat
  bind_group : Option BindGroup
deriving DecidableEq, Repr

/-- Observable effects of one frame: the buffer writes enqueued by the
`Prepare` stage, the buffer content when the render graph executes (after
`Prepare`, so any dispatch observes it), the compute-pass commands
recorded by `GameOfLifeNode::run` (`none` models the `.unwrap()` panic),
and the diagnostics emitted by this program's code (the source contains no
logging or error reporting, so this list is always empty). -/
structure FrameOutput where
  buffer_writes : List BufferWrite
  buffer_at_dispatch : Option Nat
  commands : Option (List PassCommand)
  diagnostics : List String
deriving DecidableEq, Repr

/-- One render frame, sequencing bevy's fixed render-stage order with the
systems this program registers (`GameOfLifeComputePlugin::build`, main.rs
lines 100-127): Extract (the `FrameInput`), then `Prepare` running
`prepare_time`, then `Queue` running `queue_bind_group`, then the render
graph, which calls `GameOfLifeNode::update` and then `GameOfLifeNode::run`
on the node. `write_buffer` is ordered before the frame's command-buffer
submission on the same queue, so the buffer content the dispatch observes
is the content after `prepare_time`. -/
def runFrame (w : RenderWorld) (inp : FrameInput) :
    RenderWorld × FrameOutput :=
  let write := prepare_time inp.time
  let buffer_content := some inp.time
  let queued := queue_bind_group w.next_bind_group_id inp.image_view
  let cache : PipelineCache :=
    { initState := inp.initStatus, updateState := inp.updateStatus }
  let st := GameOfLifeNode.update w.state cache
  let cmds := GameOfLifeNode.run st cache queued.1
  ({ state := st
     time_meta := w.time_meta
     buffer_content := buffer_content
     next_bind_group_id := queued.2
     bind_group := some queued.1 },
   { buffer_writes := [write]
     buffer_at_dispatch := buffer_content
     commands := cmds
     diagnostics := [] })

/-- The render world as `GameOfLifeComputePlugin::build` leaves it: node
state `Loading` (`GameOfLifeNode::default`), `TimeMeta` holding the fresh
buffer with `bind_group: None`, nothing yet written to the buffer, no bind
group created yet. -/
def initialWorld : RenderWorld :=
  { state := .Loading
    time_meta := { buffer := TIME_BUFFER, bind_group := none }
    buffer_content := none
    next_bind_group_id := 0
    bind_group := none }

/-- Run a sequence of frames, returning the final world. -/
def runFrames (w : RenderWorld) : List FrameInput → RenderWorld
  | [] => w
  | inp :: rest => runFrames (runFrame w inp).1 rest

/-- Run a sequence of frames, collecting each frame's output. -/
def frameOutputs (w : RenderWorld) : List FrameInput → List FrameOutput
  | [] => []
  | inp :: rest => (runFrame w inp).2 :: frameOutputs (runFrame w inp).1 rest

/-- A concrete bind group, used to instantiate universally quantified
theorems at a concrete input. -/
def sampleBG : BindGroup := (queue_bind_group 0 7).1

/-- A concrete frame input with both pipelines compiled. -/
def steadyInput : FrameInput :=
  { time := 1, image_view := 5, initStatus := .Ok, updateStatus := .Ok }

/-- A concrete frame input with both pipelines failed. -/
def failedInput : FrameInput :=
  { time := 0, image_view := 5, initStatus := .Err, updateStatus := .Err }

lemma stateRank_update_le (s : GameOfLifeState) (c : PipelineCache) :
    stateRank s ≤ stateRank (GameOfLifeNode.update s c) ∧
    stateRank (GameOfLifeNode.update s c) ≤ stateRank s + 1 := by
  rcases c with ⟨i, u⟩
  cases s <;> cases i <;> cases u <;> decide

lemma updateSeq_cons (c : PipelineCache) (cs : List PipelineCache)
    (s : GameOfLifeState) :
    updateSeq s (c :: cs) = updateSeq (GameOfLifeNode.update s c) cs := rfl

lemma stateRank_updateSeq_le (cs : List PipelineCache) :
    ∀ s : GameOfLifeState, stateRank s ≤ stateRank (updateSeq s cs) := by
  induction cs with
  | nil => intro s; exact le_refl _
  | cons c cs ih =>
    intro s
    exact le_trans (stateRank_update_le s c).1 (ih (GameOfLifeNode.update s c))

/-- C1. The dispatch state machine's progression is monotone: each
loader-status poll (`GameOfLifeNode::update`) never decreases the state's
rank in Loading → Init (Initializing) → Update (SteadyState), advances it
by at most one stage, a poll from `Loading` lands in `Loading` or `Init`
(never directly in `Update`), and along any sequence of polls the rank
never decreases. -/
theorem monotone_state_progression :
    (∀ (s : GameOfLifeState) (c : PipelineCache),
      stateRank s ≤ stateRank (GameOfLifeNode.update s c) ∧
      stateRank (GameOfLifeNode.update s c) ≤ stateRank s + 1) ∧
    (∀ c : PipelineCache,
      GameOfLifeNode.update .Loading c = .Loading ∨
      GameOfLifeNode.update .Loading c = .Init) ∧
    (∀ (s : GameOfLifeState) (cs : List PipelineCache),
      stateRank s ≤ stateRank (updateSeq s cs)) := by
  refine ⟨stateRank_update_le, ?_, fun s cs => stateRank_updateSeq_le cs s⟩
  intro c
  rcases c with ⟨i, u⟩
  cases i <;> cases u <;> simp [GameOfLifeNode.update,
    PipelineCache.get_compute_pipeline_state]

/-- C2. In state `Init` with the init pipeline compiled, the frame's pass
records exactly one dispatch, of the init pipeline; the poll transitions
to `Update` exactly when the machine is in `Init` and the update
pipeline's cached state is `Ok` (or it is already in `Update`, which is
terminal); and in state `Update` with the update pipeline compiled, the
frame's pass records exactly one dispatch, of the update pipeline. -/
theorem init_dispatch_and_steady_terminal :
    (∀ (c : PipelineCache) (bg : BindGroup), c.initState = .Ok →
      GameOfLifeNode.run .Init c bg =
        some [.set_bind_group 0 bg, .set_pipeline .init,
          .dispatch_workgroups 160 90 1] ∧
      dispatchCount [PassCommand.set_bind_group 0 bg,
        .set_pipeline .init, .dispatch_workgroups 160 90 1] = 1) ∧
    (∀ (s : GameOfLifeState) (c : PipelineCache),
      GameOfLifeNode.update s c = .Update ↔
        (s = .Update ∨ (s = .Init ∧ c.updateState = .Ok))) ∧
    (∀ (c : PipelineCache) (bg : BindGroup), c.updateState = .Ok →
      GameOfLifeNode.run .Update c bg =
        some [.set_bind_group 0 bg, .set_pipeline .update,
          .dispatch_workgroups 160 90 1]) := by
  refine ⟨?_, ?_, ?_⟩
  · intro c bg h
    constructor
    · simp [GameOfLifeNode.run, PipelineCache.get_compute_pipeline,
        PipelineCache.get_compute_pipeline_state, h, SIZE, WORKGROUP_SIZE]
    · simp [dispatchCount, isDispatch]
  · intro s c
    rcases c with ⟨i, u⟩
    cases s <;> cases i <;> cases u <;>
      simp [GameOfLifeNode.update, PipelineCache.get_compute_pipeline_state]
  · intro c bg h
    simp [GameOfLifeNode.run, PipelineCache.get_compute_pipeline,
      PipelineCache.get_compute_pipeline_state, h, SIZE, WORKGROUP_SIZE]

/-- Witness for C2: the three parts instantiated at concrete caches and a
concrete bind group. -/
theorem init_dispatch_and_steady_terminal_witness :
    (GameOfLifeNode.run .Init
        { initState := .Ok, updateState := .Queued } sampleBG =
      some [.set_bind_group 0 sampleBG, .set_pipeline .init,
        .dispatch_workgroups 160 90 1]) ∧
    (GameOfLifeNode.update .Init
        { initState := .Ok, updateState := .Ok } = .Update) ∧
    (GameOfLifeNode.run .Update
        { initState := .Ok, updateState := .Ok } sampleBG =
      some [.set_bind_group 0 sampleBG, .set_pipeline .update,
        .dispatch_workgroups 160 90 1]) :=
  ⟨(init_dispatch_and_steady_terminal.1
      { initState := .Ok, updateState := .Queued } sampleBG rfl).1,
   (init_dispatch_and_steady_terminal.2.1 .Init
      { initState := .Ok, updateState := .Ok }).mpr (Or.inr ⟨rfl, rfl⟩),
   init_dispatch_and_steady_terminal.2.2
      { initState := .Ok, updateState := .Ok } sampleBG rfl⟩

lemma run_loading (c : PipelineCache) (bg : BindGroup) :
    GameOfLifeNode.run .Loading c bg = some [.set_bind_group 0 bg] := rfl

lemma runFrame_commands (w : RenderWorld) (inp : FrameInput) :
    (runFrame w inp).2.commands =
      GameOfLifeNode.run (runFrame w inp).1.state
        { initState := inp.initStatus, updateState := inp.updateStatus }
        (queue_bind_group w.next_bind_group_id inp.image_view).1 := rfl

/-- C3. In a frame whose (post-poll) dispatch state is `Loading`, the pass
records only the bind-group set: no `set_pipeline` and zero dispatches. -/
theorem loading_frame_no_dispatch (w : RenderWorld) (inp : FrameInput)
    (h : (runFrame w inp).1.state = .Loading) :
    (runFrame w inp).2.commands =
      some [PassCommand.set_bind_group 0
        (queue_bind_group w.next_bind_group_id inp.image_view).1] ∧
    ∀ cmds, (runFrame w inp).2.commands = some cmds →
      dispatchCount cmds = 0 ∧ ∀ p, PassCommand.set_pipeline p ∉ cmds := by
  have hcmd : (runFrame w inp).2.commands =
      some [PassCommand.set_bind_group 0
        (queue_bind_group w.next_bind_group_id inp.image_view).1] := by
    rw [runFrame_commands, h, run_loading]
  refine ⟨hcmd, ?_⟩
  intro cmds hc
  rw [hcmd] at hc
  have : cmds = [PassCommand.set_bind_group 0
      (queue_bind_group w.next_bind_group_id inp.image_view).1] :=
    (Option.some.injEq _ _ ▸ hc).symm
  subst this
  refine ⟨by simp [dispatchCount, isDispatch], ?_⟩
  intro p hp
  simp at hp

/-- Witness for C3: a first frame with both pipelines still compiling
stays in `Loading` and records only the bind-group set. -/
theorem loading_frame_no_dispatch_witness :
    ((runFrame initialWorld
        { time := 0, image_view := 5,
          initStatus := .Queued, updateStatus := .Queued }).1.state
      = .Loading) ∧
    (runFrame initialWorld
        { time := 0, image_view := 5,
          initStatus := .Queued, updateStatus := .Queued }).2.commands =
      some [PassCommand.set_bind_group 0 (queue_bind_group 0 5).1] :=
  ⟨by decide,
   (loading_frame_no_dispatch initialWorld
      { time := 0, image_view := 5,
        initStatus := .Queued, updateStatus := .Queued } (by decide)).1⟩

/-- C4. Every dispatch recorded by `GameOfLifeNode::run` (in `Init` or
`Update`) uses workgroup counts `SIZE / WORKGROUP_SIZE` on each axis —
which for the configured `(1280, 720)` and workgroup size `8` is
`(160, 90)`, an exact division on both axes — and depth `1`. -/
theorem dispatch_workgroup_counts (s : GameOfLifeState) (c : PipelineCache)
    (bg : BindGroup) (cmds : List PassCommand) (x y z : Nat)
    (hrun : GameOfLifeNode.run s c bg = some cmds)
    (hmem : PassCommand.dispatch_workgroups x y z ∈ cmds) :
    x = SIZE.1 / WORKGROUP_SIZE ∧ y = SIZE.2 / WORKGROUP_SIZE ∧ z = 1 ∧
    x = 160 ∧ y = 90 ∧
    WORKGROUP_SIZE ∣ SIZE.1 ∧ WORKGROUP_SIZE ∣ SIZE.2 := by
  have hx : x = SIZE.1 / WORKGROUP_SIZE ∧ y = SIZE.2 / WORKGROUP_SIZE ∧
      z = 1 := by
    cases s with
    | Loading =>
      rw [run_loading] at hrun
      have : cmds = [PassCommand.set_bind_group 0 bg] :=
        (Option.some.injEq _ _ ▸ hrun).symm
      subst this
      simp at hmem
    | Init =>
      rcases hp : c.get_compute_pipeline .init with _ | p
      · simp [GameOfLifeNode.run, hp] at hrun
      · simp [GameOfLifeNode.run, hp] at hrun
        subst hrun
        simpa using hmem
    | Update =>
      rcases hp : c.get_compute_pipeline .update with _ | p
      · simp [GameOfLifeNode.run, hp] at hrun
      · simp [GameOfLifeNode.run, hp] at hrun
        subst hrun
        simpa using hmem
  obtain ⟨h1, h2, h3⟩ := hx
  subst h1; subst h2; subst h3
  exact ⟨rfl, rfl, rfl, by decide, by decide, by decide, by decide⟩

/-- Witness for C4: the dispatch recorded in an `Init` frame with the
init pipeline compiled has counts `(160, 90, 1)`. -/
theorem dispatch_workgroup_counts_witness :
    (160 : Nat) = SIZE.1 / WORKGROUP_SIZE ∧
    (90 : Nat) = SIZE.2 / WORKGROUP_SIZE ∧ (1 : Nat) = 1 ∧
    (160 : Nat) = 160 ∧ (90 : Nat) = 90 ∧
    WORKGROUP_SIZE ∣ SIZE.1 ∧ WORKGROUP_SIZE ∣ SIZE.2 :=
  dispatch_workgroup_counts .Init { initState := .Ok, updateState := .Ok }
    sampleBG
    [.set_bind_group 0 sampleBG, .set_pipeline .init,
      .dispatch_workgroups 160 90 1]
    160 90 1 (by decide) (by decide)

/-- C5 counterexample. The claim says a non-divisible configured size such
as `(1281, 720)` with workgroup size `8` makes the program fail fast at
startup instead of silently truncating the dispatch domain. The source
contains no such check: `1281` is not divisible by `8` (remainder `1`),
startup rejects nothing (`startupRejects` is identically `false`, since
`main` performs no validation), and the dispatch computation from
`GameOfLifeNode::run` silently truncates to `(160, 90, 1)`, covering only
`160 * 8 = 1280` of the 1281 columns. -/
theorem divisibility_unchecked_cex :
    1281 % 8 = 1 ∧ startupRejects (1281, 720) 8 = false ∧
    workgroupCounts (1281, 720) 8 = (160, 90, 1) ∧ 160 * 8 = 1280 := by
  decide

/-- C5 amended. The program performs no divisibility validation at
startup: no configuration is ever rejected; a non-divisible size such as
`(1281, 720)` with workgroup size `8` is silently truncated by the
dispatch computation to `(160, 90, 1)`; for the actually configured
`SIZE = (1280, 720)` and `WORKGROUP_SIZE = 8` the division happens to be
exact, so no truncation occurs there. -/
theorem divisibility_unchecked_truncation :
    (∀ (size : Nat × Nat) (wg : Nat), startupRejects size wg = false) ∧
    workgroupCounts (1281, 720) 8 = (160, 90, 1) ∧
    1281 % 8 = 1 ∧ 160 * 8 = 1280 ∧
    workgroupCounts SIZE WORKGROUP_SIZE = (160, 90, 1) ∧
    SIZE.1 % WORKGROUP_SIZE = 0 ∧ SIZE.2 % WORKGROUP_SIZE = 0 :=
  ⟨fun _ _ => rfl, by decide, by decide, by decide, by decide, by decide,
   by decide⟩

/-- C6 counterexample. Two consecutive frames with identical image and
buffer handles: `queue_bind_group` nonetheless calls `create_bind_group`
again, so the second frame's bind group is a fresh object (identity `1`)
distinct from the first frame's (identity `0`) — the claimed identity
reuse across frames with unchanged handles is false. -/
theorem bind_group_recreated_cex :
    (runFrame initialWorld steadyInput).1.bind_group =
      some { id := 0, entries := bind_group_entries 5 TIME_BUFFER } ∧
    (runFrame (runFrame initialWorld steadyInput).1 steadyInput).1.bind_group
      = some { id := 1, entries := bind_group_entries 5 TIME_BUFFER } ∧
    (runFrame (runFrame initialWorld steadyInput).1 steadyInput).1.bind_group
      ≠ (runFrame initialWorld steadyInput).1.bind_group :=
  ⟨by decide, by decide, by decide⟩

/-- C6 amended. `queue_bind_group` rebuilds the bind group every frame
unconditionally — whether or not the image or buffer handle changed — so
each frame installs a freshly created object and no bind-group identity is
ever reused across frames: consecutive frames always hold distinct
objects. -/
theorem bind_group_rebuilt_every_frame (w : RenderWorld)
    (inp inp2 : FrameInput) :
    (runFrame w inp).1.bind_group =
      some (queue_bind_group w.next_bind_group_id inp.image_view).1 ∧
    (runFrame w inp).1.next_bind_group_id = w.next_bind_group_id + 1 ∧
    (runFrame (runFrame w inp).1 inp2).1.bind_group ≠
      (runFrame w inp).1.bind_group := by
  refine ⟨rfl, rfl, fun hEq => ?_⟩
  have h : w.next_bind_group_id + 1 = w.next_bind_group_id := by
    have hids := congrArg (fun o => (Option.map BindGroup.id o).getD 0) hEq
    simp [runFrame, queue_bind_group] at hids
  omega

/-- Witness for C6's amended theorem, instantiated at two concrete frames
with identical handles. -/
theorem bind_group_rebuilt_every_frame_witness :
    (runFrame (runFrame initialWorld steadyInput).1 steadyInput).1.bind_group
      ≠ (runFrame initialWorld steadyInput).1.bind_group :=
  (bind_group_rebuilt_every_frame initialWorld steadyInput steadyInput).2.2

/-- C7. In any frame that records a dispatch, the buffer content the
render graph (and hence the dispatch) observes is exactly the elapsed time
extracted and uploaded by `prepare_time` earlier in that same frame — the
`Prepare` stage runs before the graph, and the frame's single buffer write
is that upload, so no stale prior-frame value can be observed. -/
theorem upload_precedes_dispatch (w : RenderWorld) (inp : FrameInput)
    (cmds : List PassCommand) (x y z : Nat)
    (_hrun : (runFrame w inp).2.commands = some cmds)
    (_hmem : PassCommand.dispatch_workgroups x y z ∈ cmds) :
    (runFrame w inp).2.buffer_at_dispatch = some inp.time ∧
    (runFrame w inp).2.buffer_writes = [prepare_time inp.time] :=
  ⟨rfl, rfl⟩

/-- Witness for C7: the first frame with the init pipeline compiled
dispatches, and the buffer it observes holds that frame's time. -/
theorem upload_precedes_dispatch_witness :
    (runFrame initialWorld steadyInput).2.buffer_at_dispatch = some 1 ∧
    (runFrame initialWorld steadyInput).2.buffer_writes =
      [prepare_time 1] :=
  upload_precedes_dispatch initialWorld steadyInput
    [.set_bind_group 0 { id := 0, entries := bind_group_entries 5 TIME_BUFFER },
     .set_pipeline .init, .dispatch_workgroups 160 90 1]
    160 90 1 (by decide) (by decide)

lemma runFrame_state (w : RenderWorld) (inp : FrameInput) :
    (runFrame w inp).1.state =
      GameOfLifeNode.update w.state
        { initState := inp.initStatus, updateState := inp.updateStatus } :=
  rfl

lemma update_step_stall (s : GameOfLifeState) (si su : CachedPipelineState)
    (hsu : su ≠ .Ok) (hrank : stateRank s ≤ 1)
    (hinit : s = .Init → si = .Ok) :
    stateRank (GameOfLifeNode.update s ⟨si, su⟩) ≤ 1 ∧
    (GameOfLifeNode.update s ⟨si, su⟩ = .Init → si = .Ok) := by
  cases s with
  | Loading =>
    cases si <;> simp_all [GameOfLifeNode.update,
      PipelineCache.get_compute_pipeline_state, stateRank]
  | Init =>
    have hsi : si = .Ok := hinit rfl
    cases su <;> simp_all [GameOfLifeNode.update,
      PipelineCache.get_compute_pipeline_state, stateRank]
  | Update => simp [stateRank] at hrank

lemma run_step_stall (s : GameOfLifeState) (si su : CachedPipelineState)
    (bg : BindGroup) (hrank : stateRank s ≤ 1)
    (hinit : s = .Init → si = .Ok) :
    ∃ cmds, GameOfLifeNode.run s ⟨si, su⟩ bg = some cmds ∧
      PassCommand.set_pipeline PipelineId.update ∉ cmds := by
  cases s with
  | Loading => exact ⟨[.set_bind_group 0 bg], rfl, by simp⟩
  | Init =>
    have hsi : si = .Ok := hinit rfl
    subst hsi
    refine ⟨[.set_bind_group 0 bg, .set_pipeline .init,
      .dispatch_workgroups (SIZE.1 / WORKGROUP_SIZE)
        (SIZE.2 / WORKGROUP_SIZE) 1], ?_, ?_⟩
    · simp [GameOfLifeNode.run, PipelineCache.get_compute_pipeline,
        PipelineCache.get_compute_pipeline_state]
    · simp
  | Update => simp [stateRank] at hrank

lemma stall_invariant (si su : CachedPipelineState) (hsu : su ≠ .Ok) :
    ∀ (inputs : List FrameInput) (w : RenderWorld),
      (∀ inp ∈ inputs, inp.initStatus = si ∧ inp.updateStatus = su) →
      stateRank w.state ≤ 1 → (w.state = .Init → si = .Ok) →
      stateRank (runFrames w inputs).state ≤ 1 ∧
      ∀ out ∈ frameOutputs w inputs,
        (∃ cmds, out.commands = some cmds ∧
          PassCommand.set_pipeline PipelineId.update ∉ cmds) ∧
        out.diagnostics = [] := by
  intro inputs
  induction inputs with
  | nil =>
    intro w _ hrank _
    refine ⟨hrank, ?_⟩
    intro out hout
    simp [frameOutputs] at hout
  | cons inp rest ih =>
    intro w hconst hrank hinit
    obtain ⟨hi, hu⟩ := hconst inp (List.mem_cons_self _ _)
    have hcache : (⟨inp.initStatus, inp.updateStatus⟩ : PipelineCache) =
        ⟨si, su⟩ := by
      rw [hi, hu]
    have hstate : (runFrame w inp).1.state =
        GameOfLifeNode.update w.state ⟨si, su⟩ := by
      rw [runFrame_state, hcache]
    have hpost := update_step_stall w.state si su hsu hrank hinit
    have hrank' : stateRank (runFrame w inp).1.state ≤ 1 := by
      rw [hstate]; exact hpost.1
    have hinit' : (runFrame w inp).1.state = .Init → si = .Ok := by
      rw [hstate]; exact hpost.2
    have hrest := ih (runFrame w inp).1
      (fun i hi2 => hconst i (List.mem_cons_of_mem _ hi2)) hrank' hinit'
    refine ⟨hrest.1, ?_⟩
    intro out hout
    simp only [frameOutputs] at hout
    rcases List.mem_cons.mp hout with h1 | h2
    · subst h1
      refine ⟨?_, rfl⟩
      have hcmd : (runFrame w inp).2.commands =
          GameOfLifeNode.run (GameOfLifeNode.update w.state ⟨si, su⟩)
            ⟨si, su⟩
            (queue_bind_group w.next_bind_group_id inp.image_view).1 := by
        rw [runFrame_commands, hstate, hcache]
      rw [hcmd]
      exact run_step_stall (GameOfLifeNode.update w.state ⟨si, su⟩) si su
        (queue_bind_group w.next_bind_group_id inp.image_view).1
        hpost.1 hpost.2
    · exact hrest.2 out h2

/-- C8 counterexample. The claim says that on a compilation failure the
machine stops dispatching AND surfaces a diagnostic. With both pipelines
reporting `Err` the machine does stop (the pass records only the
bind-group set, no dispatch, no crash) but its diagnostics output is
empty — the source contains no error reporting, so no diagnostic is
surfaced. -/
theorem failed_pipeline_silent_cex :
    (runFrame initialWorld failedInput).2.diagnostics = [] ∧
    (runFrame initialWorld failedInput).2.commands =
      some [PassCommand.set_bind_group 0
        { id := 0, entries := bind_group_entries 5 TIME_BUFFER }] ∧
    (runFrame initialWorld failedInput).1.state = .Loading :=
  ⟨rfl, by decide, by decide⟩

lemma update_loading_stay (si su : CachedPipelineState) (hsi : si ≠ .Ok) :
    GameOfLifeNode.update .Loading ⟨si, su⟩ = .Loading := by
  cases si <;> simp_all [GameOfLifeNode.update,
    PipelineCache.get_compute_pipeline_state]

lemma loading_stall_invariant (si su : CachedPipelineState)
    (hsi : si ≠ .Ok) :
    ∀ (inputs : List FrameInput) (w : RenderWorld),
      (∀ inp ∈ inputs, inp.initStatus = si ∧ inp.updateStatus = su) →
      w.state = .Loading →
      (runFrames w inputs).state = .Loading ∧
      ∀ out ∈ frameOutputs w inputs,
        (∃ cmds, out.commands = some cmds ∧ dispatchCount cmds = 0 ∧
          ∀ p, PassCommand.set_pipeline p ∉ cmds) ∧
        out.diagnostics = [] := by
  intro inputs
  induction inputs with
  | nil =>
    intro w _ hw
    refine ⟨hw, ?_⟩
    intro out hout
    simp [frameOutputs] at hout
  | cons inp rest ih =>
    intro w hconst hw
    obtain ⟨hi, hu⟩ := hconst inp (List.mem_cons_self _ _)
    have hcache : (⟨inp.initStatus, inp.updateStatus⟩ : PipelineCache) =
        ⟨si, su⟩ := by
      rw [hi, hu]
    have hstate : (runFrame w inp).1.state = .Loading := by
      rw [runFrame_state, hcache, hw, update_loading_stay si su hsi]
    have hrest := ih (runFrame w inp).1
      (fun i hi2 => hconst i (List.mem_cons_of_mem _ hi2)) hstate
    refine ⟨hrest.1, ?_⟩
    intro out hout
    simp only [frameOutputs] at hout
    rcases List.mem_cons.mp hout with h1 | h2
    · subst h1
      refine ⟨?_, rfl⟩
      have hcmd : (runFrame w inp).2.commands =
          some [PassCommand.set_bind_group 0
            (queue_bind_group w.next_bind_group_id inp.image_view).1] := by
        rw [runFrame_commands, hcache, hstate, run_loading]
      exact ⟨[PassCommand.set_bind_group 0
          (queue_bind_group w.next_bind_group_id inp.image_view).1],
        hcmd, by simp [dispatchCount, isDispatch], by intro p hp; simp at hp⟩
    · exact hrest.2 out h2

/-- C8 amended. If either kernel's pipeline permanently reports a non-`Ok`
state (in particular `Failed`), the machine stalls silently and never
dispatches the affected kernel: with the init pipeline permanently
non-`Ok` the machine stays in `Loading` forever and every frame records
zero dispatches and sets no pipeline at all; with the update pipeline
permanently non-`Ok` the machine never reaches `Update` (rank stays ≤ 1)
and no frame ever sets the update pipeline. In both cases every frame's
pass is recorded without crashing (`run` never hits its `.unwrap()`
panic) and no frame surfaces any diagnostic. -/
theorem failed_pipeline_stalls_silently (si su : CachedPipelineState)
    (inputs : List FrameInput)
    (hconst : ∀ inp ∈ inputs, inp.initStatus = si ∧ inp.updateStatus = su) :
    (si ≠ .Ok →
      (runFrames initialWorld inputs).state = .Loading ∧
      ∀ out ∈ frameOutputs initialWorld inputs,
        (∃ cmds, out.commands = some cmds ∧ dispatchCount cmds = 0 ∧
          ∀ p, PassCommand.set_pipeline p ∉ cmds) ∧
        out.diagnostics = []) ∧
    (su ≠ .Ok →
      stateRank (runFrames initialWorld inputs).state ≤ 1 ∧
      ∀ out ∈ frameOutputs initialWorld inputs,
        (∃ cmds, out.commands = some cmds ∧
          PassCommand.set_pipeline PipelineId.update ∉ cmds) ∧
        out.diagnostics = []) :=
  ⟨fun hsi =>
    loading_stall_invariant si su hsi inputs initialWorld hconst rfl,
   fun hsu =>
    stall_invariant si su hsu inputs initialWorld hconst (by decide)
      (by intro h; simp [initialWorld] at h)⟩

/-- A concrete frame input with the init pipeline compiled and the update
pipeline failed. -/
def initOkUpdateErrInput : FrameInput :=
  { time := 0, image_view := 5, initStatus := .Ok, updateStatus := .Err }

/-- Witness for C8's amended theorem, exercising both failure cases: a
frame with both pipelines failed stays in `Loading` silently, and a frame
with only the update pipeline failed stays below `Update` and surfaces
nothing. -/
theorem failed_pipeline_stalls_silently_witness :
    (runFrames initialWorld [failedInput]).state = .Loading ∧
    (runFrame initialWorld failedInput).2.diagnostics = [] ∧
    stateRank (runFrames initialWorld [initOkUpdateErrInput]).state ≤ 1 ∧
    (runFrame initialWorld initOkUpdateErrInput).2.diagnostics = [] :=
  ⟨((failed_pipeline_stalls_silently .Err .Err [failedInput]
      (by decide)).1 (by decide)).1,
   (((failed_pipeline_stalls_silently .Err .Err [failedInput]
      (by decide)).1 (by decide)).2 (runFrame initialWorld failedInput).2
      (by simp [frameOutputs])).2,
   ((failed_pipeline_stalls_silently .Ok .Err [initOkUpdateErrInput]
      (by decide)).2 (by decide)).1,
   (((failed_pipeline_stalls_silently .Ok .Err [initOkUpdateErrInput]
      (by decide)).2 (by decide)).2
      (runFrame initialWorld initOkUpdateErrInput).2
      (by simp [frameOutputs])).2⟩

/-- C9. The bind group built by `queue_bind_group` always places the
target image's texture view at binding 0 and the time uniform buffer at
binding 1; the layout it is built against declares binding 0 as a
read-write 2D storage texture and binding 1 as a uniform buffer whose
minimum binding size is the time buffer's creation size, which is
exactly one 4-byte scalar. -/
theorem bind_group_fixed_layout :
    (∀ (nextId view : Nat),
      ((queue_bind_group nextId view).1).entries =
        [{ binding := 0, resource := .TextureView view },
         { binding := 1, resource := .BufferBinding TIME_BUFFER }]) ∧
    texture_bind_group_layout.map BindGroupLayoutEntry.binding = [0, 1] ∧
    texture_bind_group_layout.map BindGroupLayoutEntry.ty =
      [.StorageTexture .ReadWrite .D2,
       .Buffer .Uniform false (some time_uniform_buffer_descriptor.size)] ∧
    time_uniform_buffer_descriptor.size = 4 :=
  ⟨fun _ _ => rfl, by decide, by decide, rfl⟩

lemma runFrames_time_meta :
    ∀ (inputs : List FrameInput) (w : RenderWorld),
      (runFrames w inputs).time_meta = w.time_meta := by
  intro inputs
  induction inputs with
  | nil => intro w; rfl
  | cons inp rest ih => intro w; exact ih (runFrame w inp).1

/-- C10. Every frame — regardless of the dispatch state, including
`Loading` frames — performs exactly one buffer write: 4 bytes at offset 0
holding the extracted elapsed time, and it leaves the frame's buffer
content equal to that time; the `TimeMeta` resource itself is never
mutated, so over any frame sequence from startup its `bind_group` field
remains the `None` it was initialized with. -/
theorem prepare_time_unconditional (w : RenderWorld) (inp : FrameInput)
    (inputs : List FrameInput) :
    (runFrame w inp).2.buffer_writes =
      [{ offset := 0, len := 4, value := inp.time }] ∧
    (runFrame w inp).1.buffer_content = some inp.time ∧
    (runFrame w inp).1.time_meta = w.time_meta ∧
    (runFrames initialWorld inputs).time_meta =
      { buffer := TIME_BUFFER, bind_group := none } :=
  ⟨rfl, rfl, rfl, runFrames_time_meta inputs initialWorld⟩

end GameOfLife
